import Mathlib

/-!
Shallow embedding of the object-pool management service
(`src/model.py` and `src/main.py`).

`model.py` defines pydantic models `Shirt`, `Pants`, `Sock` (each with
string fields `size` and `color`), a static `registered_types` dictionary,
and the class `ObjectPoolManagement` holding a Python list `pool`, an
`expected_type` class and an integer `max_size`.  `main.py` defines a module
dictionary `pools` mapping a type name to its `ObjectPoolManagement`
instance, a process-wide `max_size`, its own classes `Shirt` and `Book`,
and four endpoints that translate the engine's exceptions into HTTP
status codes.

Python objects are embedded as a class tag plus an ordered list of
(field name, string value) pairs; all fields of the source's models are
strings.  `isinstance(obj, cls)` for the source's flat class hierarchy is
equality of class tags.  Pydantic equality (used by `in` and
`list.remove`) compares models by their field values, which we embed as
equality of the field lists.  Exceptions become `Except` results; the
mutation of a pool in place becomes explicit state passing; `random.choice`
receives the random draw as an extra `Nat` argument reduced modulo the
list length.
-/

namespace ObjectPool

/-- The classes of the source that can appear as an object's runtime class:
`Shirt`, `Pants`, `Sock` from `model.py` and the distinct `Shirt` and
`Book` defined in `main.py`. -/
inductive PyClass where
  | shirt
  | pants
  | sock
  | mainShirt
  | book
deriving DecidableEq, Repr

/-- Field kinds of the pydantic schemas; every field in the source is `str`. -/
inductive FieldKind where
  | str
deriving DecidableEq, Repr

/-- The schema of a class: its declared fields, in declaration order. -/
def schemaOf : PyClass → List (String × FieldKind)
  | .shirt => [("size", .str), ("color", .str)]
  | .pants => [("size", .str), ("color", .str)]
  | .sock => [("size", .str), ("color", .str)]
  | .mainShirt => [("size", .str), ("color", .str)]
  | .book => [("title", .str), ("author", .str)]

/-- A Python object: its runtime class and its field values, in the
class's declaration order. -/
structure Obj where
  cls : PyClass
  fields : List (String × String)
deriving DecidableEq, Repr

/-- `isinstance(obj, cls)` for the source's registered classes: none of
them subclasses another, so the check is equality of the runtime class. -/
def isinstance (o : Obj) (c : PyClass) : Bool :=
  o.cls = c

/-- Pydantic model equality, which Python's `in` and `list.remove` use on
pool members: models compare by their field values. -/
def pyEq (a b : Obj) : Bool :=
  a.fields = b.fields

/-- `registered_types` from `model.py`: the static dictionary from type
name to class. -/
def registered_types (name : String) : Option PyClass :=
  if name = "shirt" then some .shirt
  else if name = "pants" then some .pants
  else if name = "sock" then some .sock
  else none

/-- The exceptions `ObjectPoolManagement` can raise: `ValueError` with a
message, `InputTooLargeError` (an `HTTPException` with status 400) with a
detail, and `IndexError` with a message. -/
inductive PoolExc where
  | valueError (msg : String)
  | inputTooLargeError (detail : String)
  | indexError (msg : String)
deriving DecidableEq, Repr

/-- `ObjectPoolManagement` from `model.py`: the list `pool`, the
`expected_type` class and the integer `max_size`. -/
structure ObjectPoolManagement where
  pool : List Obj
  expected_type : PyClass
  max_size : Int
deriving DecidableEq, Repr

instance {ε α : Type} [DecidableEq ε] [DecidableEq α] :
    DecidableEq (Except ε α) := fun a b =>
  match a, b with
  | .error e₁, .error e₂ => decidable_of_iff (e₁ = e₂) (by simp)
  | .error _, .ok _ => isFalse (by simp)
  | .ok _, .error _ => isFalse (by simp)
  | .ok a₁, .ok a₂ => decidable_of_iff (a₁ = a₂) (by simp)

/-- `ObjectPoolManagement.__init__`: a fresh pool is the empty list. -/
def ObjectPoolManagement.init (expected_type : PyClass) (max_size : Int) :
    ObjectPoolManagement :=
  { pool := [], expected_type := expected_type, max_size := max_size }

/-- `ObjectPoolManagement.add_object_to_pool`: raise `ValueError` when the
object is not an instance of the expected type, raise `InputTooLargeError`
when `len(self.pool) >= self.max_size`, otherwise append. -/
def ObjectPoolManagement.add_object_to_pool (p : ObjectPoolManagement)
    (obj : Obj) : Except PoolExc ObjectPoolManagement :=
  if ¬ isinstance obj p.expected_type then
    .error (.valueError "Object type does not match expected type")
  else if (p.pool.length : Int) ≥ p.max_size then
    .error (.inputTooLargeError "Input list is too large.")
  else
    .ok { p with pool := p.pool ++ [obj] }

/-- Python's `list.remove(obj)`: delete the first element equal to `obj`
(equality here is pydantic equality `pyEq`). -/
def listRemove (obj : Obj) : List Obj → List Obj
  | [] => []
  | x :: xs => if pyEq x obj then xs else x :: listRemove obj xs

/-- `ObjectPoolManagement.remove_object_from_pool`: raise `ValueError`
when `obj not in self.pool`, otherwise `self.pool.remove(obj)`. -/
def ObjectPoolManagement.remove_object_from_pool (p : ObjectPoolManagement)
    (obj : Obj) : Except PoolExc ObjectPoolManagement :=
  if p.pool.any (fun x => pyEq x obj) then
    .ok { p with pool := listRemove obj p.pool }
  else
    .error (.valueError "Object not found in pool")

/-- `ObjectPoolManagement.get_random_object_from_pool`: raise `IndexError`
on an empty pool, otherwise `random.choice(self.pool)`.  The random draw
is passed in as `k` and reduced modulo the pool length, modelling an
arbitrary in-range index. -/
def ObjectPoolManagement.get_random_object_from_pool
    (p : ObjectPoolManagement) (k : Nat) : Except PoolExc Obj :=
  match p.pool with
  | [] => .error (.indexError "No objects in the pool")
  | x :: xs => .ok ((x :: xs).get ⟨k % (x :: xs).length, Nat.mod_lt _ (Nat.succ_pos _)⟩)

/-! ## The endpoint layer of `main.py` -/

/-- An `HTTPException` as raised by the endpoints in `main.py`: a status
code and a detail string. -/
structure HTTPError where
  status : Int
  detail : String
deriving DecidableEq, Repr

/-- The module state of `main.py`: the `pools` dictionary (embedded as an
association list in insertion order) and the process-wide `max_size`. -/
structure ApiState where
  pools : List (String × ObjectPoolManagement)
  max_size : Int
deriving DecidableEq, Repr

/-- Python dictionary lookup on the embedded `pools` dictionary. -/
def dictLookup (l : List (String × ObjectPoolManagement)) (k : String) :
    Option ObjectPoolManagement :=
  match l with
  | [] => none
  | (k', v) :: rest => if k' = k then some v else dictLookup rest k

/-- Python dictionary assignment `d[k] = v`: replace the binding of `k`
if present, otherwise append it. -/
def dictSet (l : List (String × ObjectPoolManagement)) (k : String)
    (v : ObjectPoolManagement) : List (String × ObjectPoolManagement) :=
  match l with
  | [] => [(k, v)]
  | (k', v') :: rest =>
      if k' = k then (k, v) :: rest else (k', v') :: dictSet rest k v

/-- `create_object_pool` from `main.py`: reject an existing name with 400,
reject an unregistered name with 400, otherwise store a fresh pool under
`type_name` with the process-wide `max_size`. -/
def create_object_pool (s : ApiState) (type_name : String) :
    ApiState × Except HTTPError String :=
  if (dictLookup s.pools type_name).isSome then
    (s, .error ⟨400, "Pool for this type already exists"⟩)
  else
    match registered_types type_name with
    | none => (s, .error ⟨400, "Type not registered"⟩)
    | some c =>
        ({ s with pools := dictSet s.pools type_name (ObjectPoolManagement.init c s.max_size) },
         .ok ("Pool created for type " ++ type_name))

/-- `get_random_object_from_pool` (endpoint) from `main.py`: 404 when the
pool name is absent, 404 with the `IndexError` message when the pool is
empty, otherwise the sampled object.  The call never changes the state. -/
def api_get_random (s : ApiState) (type_name : String) (k : Nat) :
    ApiState × Except HTTPError Obj :=
  match dictLookup s.pools type_name with
  | none => (s, .error ⟨404, "Pool not found"⟩)
  | some p =>
      match p.get_random_object_from_pool k with
      | .error (.indexError m) => (s, .error ⟨404, m⟩)
      | .error (.valueError m) => (s, .error ⟨404, m⟩)
      | .error (.inputTooLargeError m) => (s, .error ⟨404, m⟩)
      | .ok o => (s, .ok o)

/-- `add_object_to_pool` (endpoint) from `main.py`: 404 when the pool name
is absent, 400 when `isinstance(item, pool.expected_type)` fails, then
delegate to the engine, mapping `ValueError` to 400 and re-raising
`InputTooLargeError` (status 400). -/
def api_add_object (s : ApiState) (type_name : String) (item : Obj) :
    ApiState × Except HTTPError String :=
  match dictLookup s.pools type_name with
  | none => (s, .error ⟨404, "Pool not found"⟩)
  | some p =>
      if ¬ isinstance item p.expected_type then
        (s, .error ⟨400, "Object type does not match pool type"⟩)
      else
        match p.add_object_to_pool item with
        | .ok p' =>
            ({ s with pools := dictSet s.pools type_name p' },
             .ok "Object added successfully")
        | .error (.valueError m) => (s, .error ⟨400, m⟩)
        | .error (.inputTooLargeError d) => (s, .error ⟨400, d⟩)
        | .error (.indexError m) => (s, .error ⟨400, m⟩)

/-- `remove_object_from_pool` (endpoint) from `main.py`: 404 when the pool
name is absent, 400 when `isinstance(item, pool.expected_type)` fails,
then delegate to the engine, mapping `ValueError` to 400. -/
def api_remove_object (s : ApiState) (type_name : String) (item : Obj) :
    ApiState × Except HTTPError String :=
  match dictLookup s.pools type_name with
  | none => (s, .error ⟨404, "Pool not found"⟩)
  | some p =>
      if ¬ isinstance item p.expected_type then
        (s, .error ⟨400, "Object type does not match pool type"⟩)
      else
        match p.remove_object_from_pool item with
        | .ok p' =>
            ({ s with pools := dictSet s.pools type_name p' },
             .ok "Object removed successfully")
        | .error (.valueError m) => (s, .error ⟨400, m⟩)
        | .error (.inputTooLargeError d) => (s, .error ⟨400, d⟩)
        | .error (.indexError m) => (s, .error ⟨400, m⟩)

/-- One client request against the service. -/
inductive ApiOp where
  | create (type_name : String)
  | add (type_name : String) (item : Obj)
  | remove (type_name : String) (item : Obj)
  | sample (type_name : String) (k : Nat)
deriving DecidableEq, Repr

/-- The state after serving one request. -/
def apiStep (s : ApiState) : ApiOp → ApiState
  | .create tn => (create_object_pool s tn).1
  | .add tn item => (api_add_object s tn item).1
  | .remove tn item => (api_remove_object s tn item).1
  | .sample tn k => (api_get_random s tn k).1

/-- The state after serving a sequence of requests. -/
def apiRun (s : ApiState) : List ApiOp → ApiState
  | [] => s
  | op :: ops => apiRun (apiStep s op) ops

/-- The state of `main.py` at process start: no pools, with the configured
`max_size`. -/
def initState (max_size : Int) : ApiState :=
  { pools := [], max_size := max_size }

/-! ## Spec-side notion of conformance, and concrete fixtures -/

/-- The specification's notion of type conformance, stated there as
structural: an object conforms to a pool's bound type when its
schema-defined fields match that type's schema by field names and kinds,
independent of class identity.  This definition follows the spec's words
and is compared against the code's `isinstance` check. -/
def specStructurallyConforms (o : Obj) (c : PyClass) : Bool :=
  schemaOf o.cls = schemaOf c

/-- A `Shirt` instance, `{"size": "M", "color": "blue"}`. -/
def shirtMBlue : Obj := ⟨.shirt, [("size", "M"), ("color", "blue")]⟩

/-- A `Shirt` instance, `{"size": "L", "color": "red"}`. -/
def shirtLRed : Obj := ⟨.shirt, [("size", "L"), ("color", "red")]⟩

/-- A `Pants` instance whose field values coincide with `shirtMBlue`. -/
def pantsMBlue : Obj := ⟨.pants, [("size", "M"), ("color", "blue")]⟩

/-- A `Book` instance, `{"title": "1984", "author": "George Orwell"}`. -/
def bookOrwell : Obj := ⟨.book, [("title", "1984"), ("author", "George Orwell")]⟩

/-! ## Helper lemmas -/

/-- Pydantic equality is reflexive. -/
theorem pyEq_refl (a : Obj) : pyEq a a = true := by
  simp [pyEq]

/-- Every binding of the updated dictionary is an old binding or the new
one. -/
theorem mem_dictSet {l : List (String × ObjectPoolManagement)} {k : String}
    {v : ObjectPoolManagement} {q : String × ObjectPoolManagement}
    (h : q ∈ dictSet l k v) : q ∈ l ∨ q = (k, v) := by
  induction l with
  | nil =>
      simp [dictSet] at h
      exact Or.inr h
  | cons hd tl ih =>
      rcases hd with ⟨k', v'⟩
      by_cases hk : k' = k
      · simp [dictSet, hk] at h
        rcases h with h | h
        · exact Or.inr (by simp [h])
        · exact Or.inl (List.mem_cons_of_mem _ h)
      · simp [dictSet, hk] at h
        rcases h with h | h
        · exact Or.inl (by simp [h])
        · rcases ih h with h' | h'
          · exact Or.inl (List.mem_cons_of_mem _ h')
          · exact Or.inr h'

/-- A successful dictionary lookup is a binding of the dictionary. -/
theorem dictLookup_mem {l : List (String × ObjectPoolManagement)}
    {k : String} {p : ObjectPoolManagement}
    (h : dictLookup l k = some p) : (k, p) ∈ l := by
  induction l with
  | nil => simp [dictLookup] at h
  | cons hd tl ih =>
      rcases hd with ⟨k', v'⟩
      by_cases hk : k' = k
      · simp [dictLookup, hk] at h
        simp [hk, h]
      · simp [dictLookup, hk] at h
        exact List.mem_cons_of_mem _ (ih h)

/-- Looking up the key just assigned returns the assigned value. -/
theorem dictLookup_dictSet_self (l : List (String × ObjectPoolManagement))
    (k : String) (v : ObjectPoolManagement) :
    dictLookup (dictSet l k v) k = some v := by
  induction l with
  | nil => simp [dictSet, dictLookup]
  | cons hd tl ih =>
      rcases hd with ⟨k', v'⟩
      by_cases hk : k' = k
      · simp [dictSet, dictLookup, hk]
      · simp [dictSet, dictLookup, hk, ih]

/-- `list.remove` never grows the list. -/
theorem listRemove_length_le (obj : Obj) (l : List Obj) :
    (listRemove obj l).length ≤ l.length := by
  induction l with
  | nil => simp [listRemove]
  | cons x xs ih =>
      by_cases hx : pyEq x obj = true
      · simp [listRemove, hx]
      · simp only [listRemove, hx, if_false, List.length_cons]
        exact Nat.succ_le_succ ih

/-- When some element compares equal, `list.remove` shrinks the list by
exactly one. -/
theorem listRemove_length_of_any {obj : Obj} {l : List Obj}
    (h : l.any (fun x => pyEq x obj) = true) :
    (listRemove obj l).length + 1 = l.length := by
  induction l with
  | nil => simp at h
  | cons x xs ih =>
      by_cases hx : pyEq x obj = true
      · simp [listRemove, hx]
      · simp only [List.any_cons, hx, Bool.false_or] at h
        simp only [listRemove, hx, if_false, List.length_cons]
        exact congrArg Nat.succ (ih h)

/-- `list.remove` deletes exactly the first matching element. -/
theorem listRemove_append (obj : Obj) (l₁ : List Obj) (x : Obj)
    (l₂ : List Obj) (h₁ : ∀ y ∈ l₁, pyEq y obj = false)
    (hx : pyEq x obj = true) :
    listRemove obj (l₁ ++ x :: l₂) = l₁ ++ l₂ := by
  induction l₁ with
  | nil => simp [listRemove, hx]
  | cons y ys ih =>
      have hy : pyEq y obj = false := h₁ y (List.mem_cons_self y ys)
      simp only [List.cons_append, listRemove, hy, if_false]
      have := ih (fun z hz => h₁ z (List.mem_cons_of_mem _ hz))
      simp [this]

/-- Sampling never changes the module state. -/
theorem api_get_random_fst (s : ApiState) (tn : String) (k : Nat) :
    (api_get_random s tn k).1 = s := by
  unfold api_get_random
  rcases hd : dictLookup s.pools tn with _ | p
  · rfl
  · rcases hr : p.get_random_object_from_pool k with e | o
    · rcases e with m | m | m <;> simp [hr]
    · simp [hr]

/-- Characterization of a successful engine insert. -/
theorem add_ok_iff (p : ObjectPoolManagement) (o : Obj)
    (p' : ObjectPoolManagement) :
    p.add_object_to_pool o = .ok p' ↔
      (isinstance o p.expected_type = true ∧
       (p.pool.length : Int) < p.max_size ∧
       p' = { p with pool := p.pool ++ [o] }) := by
  unfold ObjectPoolManagement.add_object_to_pool
  by_cases hty : isinstance o p.expected_type = true
  · by_cases hcap : (p.pool.length : Int) ≥ p.max_size
    · simp [hty, hcap]
    · simp [hty, hcap, lt_of_not_ge hcap, eq_comm]
  · simp [hty]

/-- A request that ends in an error leaves the module state unchanged:
`create_object_pool`. -/
theorem create_error_fst {s : ApiState} {tn : String} {e : HTTPError}
    (h : (create_object_pool s tn).2 = .error e) :
    (create_object_pool s tn).1 = s := by
  unfold create_object_pool at h ⊢
  by_cases hd : (dictLookup s.pools tn).isSome
  · simp [hd]
  · rcases hr : registered_types tn with _ | c
    · simp [hd, hr]
    · simp [hd, hr] at h

/-- A request that ends in an error leaves the module state unchanged:
`add_object_to_pool` endpoint. -/
theorem api_add_error_fst {s : ApiState} {tn : String} {o : Obj}
    {e : HTTPError} (h : (api_add_object s tn o).2 = .error e) :
    (api_add_object s tn o).1 = s := by
  unfold api_add_object at h ⊢
  rcases hd : dictLookup s.pools tn with _ | p
  · rfl
  · simp only [hd] at h ⊢
    by_cases hty : isinstance o p.expected_type = true
    · simp only [hty, not_true, if_false] at h ⊢
      rcases ha : p.add_object_to_pool o with e' | p'
      · rcases e' with m | m | m <;> simp [ha]
      · simp [ha] at h
    · simp [hty]

/-- Characterization of a successful engine removal. -/
theorem remove_ok_iff (p : ObjectPoolManagement) (obj : Obj)
    (p' : ObjectPoolManagement) :
    p.remove_object_from_pool obj = .ok p' ↔
      (p.pool.any (fun x => pyEq x obj) = true ∧
       p' = { p with pool := listRemove obj p.pool }) := by
  unfold ObjectPoolManagement.remove_object_from_pool
  by_cases hany : p.pool.any (fun x => pyEq x obj) = true
  · simp [hany, eq_comm]
  · simp [hany]

/-- A request that ends in an error leaves the module state unchanged:
`remove_object_from_pool` endpoint. -/
theorem api_remove_error_fst {s : ApiState} {tn : String} {o : Obj}
    {e : HTTPError} (h : (api_remove_object s tn o).2 = .error e) :
    (api_remove_object s tn o).1 = s := by
  unfold api_remove_object at h ⊢
  rcases hd : dictLookup s.pools tn with _ | p
  · rfl
  · simp only [hd] at h ⊢
    by_cases hty : isinstance o p.expected_type = true
    · simp only [hty, not_true, if_false] at h ⊢
      rcases ha : p.remove_object_from_pool o with e' | p'
      · rcases e' with m | m | m <;> simp [ha]
      · simp [ha] at h
    · simp [hty]

/-- Serving one request never changes the process-wide `max_size`. -/
theorem apiStep_max_size (s : ApiState) (op : ApiOp) :
    (apiStep s op).max_size = s.max_size := by
  cases op with
  | create tn =>
      simp only [apiStep]
      unfold create_object_pool
      by_cases hd : (dictLookup s.pools tn).isSome
      · simp [hd]
      · rcases hr : registered_types tn with _ | c <;> simp [hd, hr]
  | add tn item =>
      simp only [apiStep]
      unfold api_add_object
      rcases hd : dictLookup s.pools tn with _ | p
      · rfl
      · by_cases hty : isinstance item p.expected_type = true
        · rcases ha : p.add_object_to_pool item with e | p'
          · rcases e with m | m | m <;> simp [hty, ha]
          · simp [hty, ha]
        · simp [hty]
  | remove tn item =>
      simp only [apiStep]
      unfold api_remove_object
      rcases hd : dictLookup s.pools tn with _ | p
      · rfl
      · by_cases hty : isinstance item p.expected_type = true
        · rcases ha : p.remove_object_from_pool item with e | p'
          · rcases e with m | m | m <;> simp [hty, ha]
          · simp [hty, ha]
        · simp [hty]
  | sample tn k =>
      simp only [apiStep]
      rw [api_get_random_fst]

/-- One request preserves the capacity bound on every pool. -/
theorem poolLen_step {s : ApiState} (op : ApiOp) (h0 : 0 ≤ s.max_size)
    (h : ∀ q ∈ s.pools, (q.2.pool.length : Int) ≤ q.2.max_size) :
    ∀ q ∈ (apiStep s op).pools, (q.2.pool.length : Int) ≤ q.2.max_size := by
  cases op with
  | create tn =>
      simp only [apiStep]
      unfold create_object_pool
      by_cases hd : (dictLookup s.pools tn).isSome
      · simpa [hd] using h
      · rcases hr : registered_types tn with _ | c
        · simpa [hd, hr] using h
        · simp only [hd, hr, if_false, Bool.false_eq_true, ite_false]
          intro q hq
          rcases mem_dictSet hq with hq' | hq'
          · exact h q hq'
          · subst hq'
            simpa [ObjectPoolManagement.init] using h0
  | add tn item =>
      simp only [apiStep]
      unfold api_add_object
      rcases hd : dictLookup s.pools tn with _ | p
      · exact h
      · by_cases hty : isinstance item p.expected_type = true
        · rcases ha : p.add_object_to_pool item with e | p'
          · rcases e with m | m | m <;> simpa [hty, ha] using h
          · simp only [hty, not_true, if_false, ha]
            intro q hq
            rcases mem_dictSet hq with hq' | hq'
            · exact h q hq'
            · subst hq'
              rcases (add_ok_iff p item p').mp ha with ⟨_, hlt, hp'⟩
              subst hp'
              simp only [List.length_append, List.length_singleton]
              push_cast
              omega
        · simpa [hty] using h
  | remove tn item =>
      simp only [apiStep]
      unfold api_remove_object
      rcases hd : dictLookup s.pools tn with _ | p
      · exact h
      · by_cases hty : isinstance item p.expected_type = true
        · rcases ha : p.remove_object_from_pool item with e | p'
          · rcases e with m | m | m <;> simpa [hty, ha] using h
          · simp only [hty, not_true, if_false, ha]
            intro q hq
            rcases mem_dictSet hq with hq' | hq'
            · exact h q hq'
            · subst hq'
              rcases (remove_ok_iff p item p').mp ha with ⟨_, hp'⟩
              subst hp'
              have hle : (listRemove item p.pool).length ≤ p.pool.length :=
                listRemove_length_le item p.pool
              have hp := h (tn, p) (dictLookup_mem hd)
              simp only at hp ⊢
              calc ((listRemove item p.pool).length : Int)
                  ≤ (p.pool.length : Int) := by exact_mod_cast hle
                _ ≤ p.max_size := hp
        · simpa [hty] using h
  | sample tn k =>
      simp only [apiStep]
      rw [api_get_random_fst]
      exact h

/-- Any run of requests preserves the capacity bound on every pool. -/
theorem poolLen_run (ops : List ApiOp) :
    ∀ s : ApiState, 0 ≤ s.max_size →
      (∀ q ∈ s.pools, (q.2.pool.length : Int) ≤ q.2.max_size) →
      ∀ q ∈ (apiRun s ops).pools, (q.2.pool.length : Int) ≤ q.2.max_size := by
  induction ops with
  | nil => intro s _ h; simpa [apiRun] using h
  | cons op ops ih =>
      intro s h0 h
      simp only [apiRun]
      exact ih _ (by rw [apiStep_max_size]; exact h0) (poolLen_step op h0 h)

/-- One request preserves the registry invariant: every pool is stored
under its expected type's registered name. -/
theorem regInv_step {s : ApiState} (op : ApiOp)
    (h : ∀ q ∈ s.pools, registered_types q.1 = some q.2.expected_type) :
    ∀ q ∈ (apiStep s op).pools,
      registered_types q.1 = some q.2.expected_type := by
  cases op with
  | create tn =>
      simp only [apiStep]
      unfold create_object_pool
      by_cases hd : (dictLookup s.pools tn).isSome
      · simpa [hd] using h
      · rcases hr : registered_types tn with _ | c
        · simpa [hd, hr] using h
        · simp only [hd, hr, if_false, Bool.false_eq_true, ite_false]
          intro q hq
          rcases mem_dictSet hq with hq' | hq'
          · exact h q hq'
          · subst hq'
            simpa [ObjectPoolManagement.init] using hr
  | add tn item =>
      simp only [apiStep]
      unfold api_add_object
      rcases hd : dictLookup s.pools tn with _ | p
      · exact h
      · by_cases hty : isinstance item p.expected_type = true
        · rcases ha : p.add_object_to_pool item with e | p'
          · rcases e with m | m | m <;> simpa [hty, ha] using h
          · simp only [hty, not_true, if_false, ha]
            intro q hq
            rcases mem_dictSet hq with hq' | hq'
            · exact h q hq'
            · subst hq'
              rcases (add_ok_iff p item p').mp ha with ⟨_, _, hp'⟩
              subst hp'
              simpa using h (tn, p) (dictLookup_mem hd)
        · simpa [hty] using h
  | remove tn item =>
      simp only [apiStep]
      unfold api_remove_object
      rcases hd : dictLookup s.pools tn with _ | p
      · exact h
      · by_cases hty : isinstance item p.expected_type = true
        · rcases ha : p.remove_object_from_pool item with e | p'
          · rcases e with m | m | m <;> simpa [hty, ha] using h
          · simp only [hty, not_true, if_false, ha]
            intro q hq
            rcases mem_dictSet hq with hq' | hq'
            · exact h q hq'
            · subst hq'
              rcases (remove_ok_iff p item p').mp ha with ⟨_, hp'⟩
              subst hp'
              simpa using h (tn, p) (dictLookup_mem hd)
        · simpa [hty] using h
  | sample tn k =>
      simp only [apiStep]
      rw [api_get_random_fst]
      exact h

/-- Any run of requests preserves the registry invariant. -/
theorem regInv_run (ops : List ApiOp) :
    ∀ s : ApiState,
      (∀ q ∈ s.pools, registered_types q.1 = some q.2.expected_type) →
      ∀ q ∈ (apiRun s ops).pools,
        registered_types q.1 = some q.2.expected_type := by
  induction ops with
  | nil => intro s h; simpa [apiRun] using h
  | cons op ops ih =>
      intro s h
      simp only [apiRun]
      exact ih _ (regInv_step op h)

/-- `registered_types` binds distinct names to distinct classes. -/
theorem registered_types_inj {n₁ n₂ : String} {c : PyClass}
    (h₁ : registered_types n₁ = some c) (h₂ : registered_types n₂ = some c) :
    n₁ = n₂ := by
  unfold registered_types at h₁ h₂
  split_ifs at h₁ h₂ <;> simp_all <;> rw [← h₁] at h₂ <;> simp at h₂

/-- With a non-positive `max_size`, one request keeps every pool empty. -/
theorem emptyInv_step {s : ApiState} (op : ApiOp) (h0 : s.max_size ≤ 0)
    (h : ∀ q ∈ s.pools, q.2.pool = [] ∧ q.2.max_size ≤ 0) :
    ∀ q ∈ (apiStep s op).pools, q.2.pool = [] ∧ q.2.max_size ≤ 0 := by
  cases op with
  | create tn =>
      simp only [apiStep]
      unfold create_object_pool
      by_cases hd : (dictLookup s.pools tn).isSome
      · simpa [hd] using h
      · rcases hr : registered_types tn with _ | c
        · simpa [hd, hr] using h
        · simp only [hd, hr, if_false, Bool.false_eq_true, ite_false]
          intro q hq
          rcases mem_dictSet hq with hq' | hq'
          · exact h q hq'
          · subst hq'
            simpa [ObjectPoolManagement.init] using h0
  | add tn item =>
      simp only [apiStep]
      unfold api_add_object
      rcases hd : dictLookup s.pools tn with _ | p
      · exact h
      · by_cases hty : isinstance item p.expected_type = true
        · rcases ha : p.add_object_to_pool item with e | p'
          · rcases e with m | m | m <;> simpa [hty, ha] using h
          · exfalso
            rcases (add_ok_iff p item p').mp ha with ⟨_, hlt, _⟩
            have hp := h (tn, p) (dictLookup_mem hd)
            simp only at hp
            have : (0 : Int) ≤ (p.pool.length : Int) := Int.ofNat_nonneg _
            omega
        · simpa [hty] using h
  | remove tn item =>
      simp only [apiStep]
      unfold api_remove_object
      rcases hd : dictLookup s.pools tn with _ | p
      · exact h
      · by_cases hty : isinstance item p.expected_type = true
        · rcases ha : p.remove_object_from_pool item with e | p'
          · rcases e with m | m | m <;> simpa [hty, ha] using h
          · exfalso
            rcases (remove_ok_iff p item p').mp ha with ⟨hany, _⟩
            have hp := (h (tn, p) (dictLookup_mem hd)).1
            rw [hp] at hany
            simp at hany
        · simpa [hty] using h
  | sample tn k =>
      simp only [apiStep]
      rw [api_get_random_fst]
      exact h

/-- With a non-positive `max_size`, any run keeps every pool empty. -/
theorem emptyInv_run (ops : List ApiOp) :
    ∀ s : ApiState, s.max_size ≤ 0 →
      (∀ q ∈ s.pools, q.2.pool = [] ∧ q.2.max_size ≤ 0) →
      ∀ q ∈ (apiRun s ops).pools, q.2.pool = [] ∧ q.2.max_size ≤ 0 := by
  induction ops with
  | nil => intro s _ h; simpa [apiRun] using h
  | cons op ops ih =>
      intro s h0 h
      simp only [apiRun]
      exact ih _ (by rw [apiStep_max_size]; exact h0) (emptyInv_step op h0 h)

/-! ## Claim theorems -/

/-- Claim C1: for every pool and every sequence of insert/remove/sample
operations, at every observable point `0 <= |members| <= capacity`: a
pool starts empty, insert only grows the member sequence when it is below
capacity, and remove only shrinks it. -/
theorem pool_invariant_spec (m : Int) (hm : 0 ≤ m) (ops : List ApiOp) :
    (∀ q ∈ (apiRun (initState m) ops).pools,
        0 ≤ (q.2.pool.length : Int) ∧ (q.2.pool.length : Int) ≤ q.2.max_size)
    ∧ (∀ (s : ApiState) (tn : String) (c : PyClass),
        dictLookup s.pools tn = none → registered_types tn = some c →
        dictLookup ((create_object_pool s tn).1).pools tn
          = some { pool := [], expected_type := c, max_size := s.max_size })
    ∧ (∀ (p : ObjectPoolManagement) (o : Obj) (p' : ObjectPoolManagement),
        p.add_object_to_pool o = .ok p' →
        (p.pool.length : Int) < p.max_size
          ∧ p'.pool.length = p.pool.length + 1)
    ∧ (∀ (p : ObjectPoolManagement) (o : Obj) (p' : ObjectPoolManagement),
        p.remove_object_from_pool o = .ok p' →
        p'.pool.length + 1 = p.pool.length) := by
  refine ⟨?_, ?_, ?_, ?_⟩
  · intro q hq
    refine ⟨Int.ofNat_nonneg _, ?_⟩
    exact poolLen_run ops (initState m) (by simpa [initState] using hm)
      (by simp [initState]) q hq
  · intro s tn c h1 h2
    have hs1 : (create_object_pool s tn).1
        = { s with pools := dictSet s.pools tn (ObjectPoolManagement.init c s.max_size) } := by
      unfold create_object_pool
      simp [h1, h2]
    rw [hs1]
    exact dictLookup_dictSet_self s.pools tn _
  · intro p o p' h
    rcases (add_ok_iff p o p').mp h with ⟨_, hlt, hp'⟩
    subst hp'
    exact ⟨hlt, by simp⟩
  · intro p o p' h
    rcases (remove_ok_iff p o p').mp h with ⟨hany, hp'⟩
    subst hp'
    exact listRemove_length_of_any hany

/-- Witness for C1: a run creating a shirt pool and adding one shirt
satisfies the bound, and a concrete insert grows the pool by one. -/
theorem pool_invariant_spec_witness :
    (0 ≤ ((⟨[shirtMBlue], PyClass.shirt, 5⟩ : ObjectPoolManagement).pool.length : Int)
      ∧ ((⟨[shirtMBlue], PyClass.shirt, 5⟩ : ObjectPoolManagement).pool.length : Int)
          ≤ (⟨[shirtMBlue], PyClass.shirt, 5⟩ : ObjectPoolManagement).max_size)
    ∧ (((⟨[], PyClass.shirt, 5⟩ : ObjectPoolManagement).pool.length : Int)
          < (⟨[], PyClass.shirt, 5⟩ : ObjectPoolManagement).max_size
      ∧ (⟨[shirtMBlue], PyClass.shirt, 5⟩ : ObjectPoolManagement).pool.length
          = (⟨[], PyClass.shirt, 5⟩ : ObjectPoolManagement).pool.length + 1) :=
  ⟨(pool_invariant_spec 5 (by decide)
      [ApiOp.create "shirt", ApiOp.add "shirt" shirtMBlue]).1
      ("shirt", ⟨[shirtMBlue], PyClass.shirt, 5⟩) (by decide),
   (pool_invariant_spec 5 (by decide) []).2.2.1 ⟨[], PyClass.shirt, 5⟩
      shirtMBlue ⟨[shirtMBlue], PyClass.shirt, 5⟩ (by decide)⟩

/-- Claim C2 counterexample: a `Pants` instance's schema-defined fields
match a shirt pool's bound schema (structural conformance holds), yet the
insert still fails with the type-mismatch error, because the code checks
`isinstance` (class identity), not structure. -/
theorem insert_structural_conformance_cex :
    specStructurallyConforms pantsMBlue PyClass.shirt = true
    ∧ (⟨[], PyClass.shirt, 10⟩ : ObjectPoolManagement).add_object_to_pool
        pantsMBlue
        = .error (.valueError "Object type does not match expected type") := by
  decide

/-- Claim C2 (amended): insert fails with `TypeMismatch` exactly when the
object's class is not the pool's expected type (an `isinstance` check,
nominal rather than structural), and any failed insert leaves the module
state, hence `|members|`, unchanged. -/
theorem insert_type_check_is_nominal (p : ObjectPoolManagement) (o : Obj) :
    (p.add_object_to_pool o
        = .error (.valueError "Object type does not match expected type")
      ↔ isinstance o p.expected_type = false)
    ∧ (∀ (s : ApiState) (tn : String) (e : HTTPError),
        (api_add_object s tn o).2 = .error e → (api_add_object s tn o).1 = s) := by
  constructor
  · unfold ObjectPoolManagement.add_object_to_pool
    by_cases hty : isinstance o p.expected_type = true
    · by_cases hcap : (p.pool.length : Int) ≥ p.max_size <;> simp [hty, hcap]
    · have hf : isinstance o p.expected_type = false := by simpa using hty
      simp [hf]
  · intro s tn e h
    exact api_add_error_fst h

/-- Witness for C2 (amended): a `Book` into a shirt pool is a type
mismatch, and the failing endpoint call leaves the state unchanged. -/
theorem insert_type_check_is_nominal_witness :
    (⟨[], PyClass.shirt, 10⟩ : ObjectPoolManagement).add_object_to_pool
        bookOrwell
        = .error (.valueError "Object type does not match expected type")
    ∧ (api_add_object ⟨[("shirt", ⟨[], PyClass.shirt, 10⟩)], 10⟩ "shirt"
        bookOrwell).1
        = ⟨[("shirt", ⟨[], PyClass.shirt, 10⟩)], 10⟩ :=
  ⟨((insert_type_check_is_nominal ⟨[], PyClass.shirt, 10⟩ bookOrwell).1).mpr
      (by decide),
   (insert_type_check_is_nominal ⟨[], PyClass.shirt, 10⟩ bookOrwell).2
      ⟨[("shirt", ⟨[], PyClass.shirt, 10⟩)], 10⟩ "shirt"
      ⟨400, "Object type does not match pool type"⟩ (by decide)⟩

/-- Claim C4: `sample_random` fails with `EmptyPool` exactly when
`|members| == 0`; on a non-empty pool it returns an element currently
present in `members`; and the call never modifies the module state. -/
theorem sample_random_spec (p : ObjectPoolManagement) (k : Nat) :
    (p.get_random_object_from_pool k
        = .error (.indexError "No objects in the pool") ↔ p.pool.length = 0)
    ∧ (∀ o, p.get_random_object_from_pool k = .ok o → o ∈ p.pool)
    ∧ (∀ (s : ApiState) (tn : String), (api_get_random s tn k).1 = s) := by
  refine ⟨?_, ?_, fun s tn => api_get_random_fst s tn k⟩
  · rcases p with ⟨pool, ty, ms⟩
    cases pool with
    | nil => simp [ObjectPoolManagement.get_random_object_from_pool]
    | cons x xs => simp [ObjectPoolManagement.get_random_object_from_pool]
  · intro o h
    rcases p with ⟨pool, ty, ms⟩
    cases pool with
    | nil => simp [ObjectPoolManagement.get_random_object_from_pool] at h
    | cons x xs =>
        simp only [ObjectPoolManagement.get_random_object_from_pool,
          Except.ok.injEq] at h
        rw [← h]
        exact List.get_mem _ _ _

/-- Witness for C4: sampling a one-shirt pool returns a member, and the
endpoint call leaves a concrete state unchanged. -/
theorem sample_random_spec_witness :
    shirtMBlue ∈ (⟨[shirtMBlue], PyClass.shirt, 5⟩ : ObjectPoolManagement).pool
    ∧ (api_get_random ⟨[("shirt", ⟨[], PyClass.shirt, 5⟩)], 5⟩ "shirt" 3).1
        = ⟨[("shirt", ⟨[], PyClass.shirt, 5⟩)], 5⟩ :=
  ⟨(sample_random_spec ⟨[shirtMBlue], PyClass.shirt, 5⟩ 0).2.1 shirtMBlue
      (by decide),
   (sample_random_spec ⟨[shirtMBlue], PyClass.shirt, 5⟩ 3).2.2
      ⟨[("shirt", ⟨[], PyClass.shirt, 5⟩)], 5⟩ "shirt"⟩

/-- Claim C5: inserting a conforming object into a pool whose member
count equals its capacity fails with the capacity error (the type check
having passed first), and the state is unchanged. -/
theorem insert_at_capacity_spec (s : ApiState) (tn : String) (item : Obj)
    (p : ObjectPoolManagement) (hl : dictLookup s.pools tn = some p)
    (hty : isinstance item p.expected_type = true)
    (hcap : (p.pool.length : Int) = p.max_size) :
    p.add_object_to_pool item
        = .error (.inputTooLargeError "Input list is too large.")
    ∧ api_add_object s tn item
        = (s, .error ⟨400, "Input list is too large."⟩) := by
  have hge : (p.pool.length : Int) ≥ p.max_size := ge_of_eq hcap
  have heng : p.add_object_to_pool item
      = .error (.inputTooLargeError "Input list is too large.") := by
    unfold ObjectPoolManagement.add_object_to_pool
    simp [hty, hge]
  refine ⟨heng, ?_⟩
  unfold api_add_object
  simp [hl, hty, heng]

/-- Witness for C5: a shirt pool of capacity 1 holding one shirt rejects
a second conforming shirt with the capacity error. -/
theorem insert_at_capacity_spec_witness :
    (⟨[shirtMBlue], PyClass.shirt, 1⟩ : ObjectPoolManagement).add_object_to_pool
        shirtLRed
        = .error (.inputTooLargeError "Input list is too large.")
    ∧ api_add_object ⟨[("shirt", ⟨[shirtMBlue], PyClass.shirt, 1⟩)], 1⟩
        "shirt" shirtLRed
        = (⟨[("shirt", ⟨[shirtMBlue], PyClass.shirt, 1⟩)], 1⟩,
           .error ⟨400, "Input list is too large."⟩) :=
  insert_at_capacity_spec ⟨[("shirt", ⟨[shirtMBlue], PyClass.shirt, 1⟩)], 1⟩
    "shirt" shirtLRed ⟨[shirtMBlue], PyClass.shirt, 1⟩
    (by decide) (by decide) (by decide)

/-- Claim C6: if some element of `members` is structurally equal to
`obj`, remove deletes exactly the first such match in insertion order and
the length decreases by one; otherwise remove fails with the not-found
error and the member sequence is unchanged. -/
theorem remove_first_match_spec (p : ObjectPoolManagement) (obj : Obj) :
    ((∀ x ∈ p.pool, pyEq x obj = false) →
        p.remove_object_from_pool obj
          = .error (.valueError "Object not found in pool"))
    ∧ (∀ (l₁ : List Obj) (x : Obj) (l₂ : List Obj),
        p.pool = l₁ ++ x :: l₂ →
        (∀ y ∈ l₁, pyEq y obj = false) →
        pyEq x obj = true →
        p.remove_object_from_pool obj = .ok { p with pool := l₁ ++ l₂ }
          ∧ (l₁ ++ l₂).length + 1 = p.pool.length) := by
  constructor
  · intro hall
    have hany : p.pool.any (fun x => pyEq x obj) = false := by
      apply List.any_eq_false.mpr
      intro x hx
      simp [hall x hx]
    unfold ObjectPoolManagement.remove_object_from_pool
    simp [hany]
  · intro l₁ x l₂ hpool h₁ hx
    have hxmem : x ∈ p.pool := by
      rw [hpool]
      exact List.mem_append_right _ (List.mem_cons_self x l₂)
    have hany : p.pool.any (fun y => pyEq y obj) = true :=
      List.any_eq_true.mpr ⟨x, hxmem, hx⟩
    have hrem : listRemove obj p.pool = l₁ ++ l₂ := by
      rw [hpool]
      exact listRemove_append obj l₁ x l₂ h₁ hx
    constructor
    · rw [remove_ok_iff]
      exact ⟨hany, by rw [hrem]⟩
    · rw [hpool]
      simp
      omega

/-- Witness for C6: removing `shirtMBlue` from a pool holding it twice
deletes only the first occurrence; removing it from a pool without a
match fails with the not-found error. -/
theorem remove_first_match_spec_witness :
    (⟨[shirtLRed, shirtMBlue, shirtMBlue], PyClass.shirt, 5⟩ :
        ObjectPoolManagement).remove_object_from_pool shirtMBlue
        = .ok ⟨[shirtLRed, shirtMBlue], PyClass.shirt, 5⟩
    ∧ (⟨[shirtLRed], PyClass.shirt, 5⟩ :
        ObjectPoolManagement).remove_object_from_pool shirtMBlue
        = .error (.valueError "Object not found in pool") :=
  ⟨((remove_first_match_spec ⟨[shirtLRed, shirtMBlue, shirtMBlue],
        PyClass.shirt, 5⟩ shirtMBlue).2
      [shirtLRed] shirtMBlue [shirtMBlue] rfl (by decide) (by decide)).1,
   (remove_first_match_spec ⟨[shirtLRed], PyClass.shirt, 5⟩ shirtMBlue).1
      (by decide)⟩

/-- Claim C7: creating a pool twice under the same name succeeds the
first time, fails with `AlreadyExists` (status 400) the second time, and
the failed call changes neither the module state nor the pool created by
the first call. -/
theorem duplicate_create_spec (s : ApiState) (tn : String) (c : PyClass)
    (h1 : dictLookup s.pools tn = none)
    (h2 : registered_types tn = some c) :
    (create_object_pool s tn).2 = .ok ("Pool created for type " ++ tn)
    ∧ (create_object_pool (create_object_pool s tn).1 tn).2
        = .error ⟨400, "Pool for this type already exists"⟩
    ∧ (create_object_pool (create_object_pool s tn).1 tn).1
        = (create_object_pool s tn).1
    ∧ dictLookup ((create_object_pool (create_object_pool s tn).1 tn).1).pools tn
        = some { pool := [], expected_type := c, max_size := s.max_size } := by
  have hs1 : (create_object_pool s tn).1
      = { s with pools := dictSet s.pools tn (ObjectPoolManagement.init c s.max_size) } := by
    unfold create_object_pool
    simp [h1, h2]
  have hsnd : (create_object_pool s tn).2
      = .ok ("Pool created for type " ++ tn) := by
    unfold create_object_pool
    simp [h1, h2]
  have hlook : dictLookup ((create_object_pool s tn).1).pools tn
      = some (ObjectPoolManagement.init c s.max_size) := by
    rw [hs1]
    exact dictLookup_dictSet_self s.pools tn _
  have hgen : ∀ s' : ApiState,
      dictLookup s'.pools tn = some (ObjectPoolManagement.init c s.max_size) →
      (create_object_pool s' tn).1 = s'
        ∧ (create_object_pool s' tn).2
            = .error ⟨400, "Pool for this type already exists"⟩ := by
    intro s' hl
    unfold create_object_pool
    simp [hl]
  refine ⟨hsnd, (hgen _ hlook).2, (hgen _ hlook).1, ?_⟩
  rw [(hgen _ hlook).1]
  exact hlook

/-- Witness for C7: creating the shirt pool twice from the empty state. -/
theorem duplicate_create_spec_witness :
    (create_object_pool ⟨[], 7⟩ "shirt").2
        = .ok ("Pool created for type " ++ "shirt")
    ∧ (create_object_pool (create_object_pool ⟨[], 7⟩ "shirt").1 "shirt").2
        = .error ⟨400, "Pool for this type already exists"⟩
    ∧ (create_object_pool (create_object_pool ⟨[], 7⟩ "shirt").1 "shirt").1
        = (create_object_pool ⟨[], 7⟩ "shirt").1
    ∧ dictLookup ((create_object_pool (create_object_pool ⟨[], 7⟩ "shirt").1
          "shirt").1).pools "shirt"
        = some { pool := [], expected_type := PyClass.shirt, max_size := 7 } :=
  duplicate_create_spec ⟨[], 7⟩ "shirt" PyClass.shirt (by decide) (by decide)

/-- Claim C8: on a pool below capacity, inserting a conforming object
with no structurally-equal member and then removing it returns the pool
to exactly its prior members (hence its prior count), and removing it a
second time fails with the not-found error. -/
theorem insert_remove_roundtrip_spec (p : ObjectPoolManagement) (obj : Obj)
    (hty : isinstance obj p.expected_type = true)
    (hcap : (p.pool.length : Int) < p.max_size)
    (hnm : ∀ x ∈ p.pool, pyEq x obj = false) :
    p.add_object_to_pool obj = .ok { p with pool := p.pool ++ [obj] }
    ∧ ({ p with pool := p.pool ++ [obj] } :
        ObjectPoolManagement).remove_object_from_pool obj = .ok p
    ∧ (p.pool ++ [obj]).length = p.pool.length + 1
    ∧ p.remove_object_from_pool obj
        = .error (.valueError "Object not found in pool") := by
  refine ⟨(add_ok_iff p obj _).mpr ⟨hty, hcap, rfl⟩, ?_, by simp, ?_⟩
  · rw [remove_ok_iff]
    constructor
    · exact List.any_eq_true.mpr
        ⟨obj, List.mem_append_right _ (List.mem_cons_self obj []), pyEq_refl obj⟩
    · have hrem : listRemove obj (p.pool ++ [obj]) = p.pool ++ [] :=
        listRemove_append obj p.pool obj [] hnm (pyEq_refl obj)
      cases p
      simp [hrem]
  · have hany : p.pool.any (fun x => pyEq x obj) = false := by
      apply List.any_eq_false.mpr
      intro x hx
      simp [hnm x hx]
    unfold ObjectPoolManagement.remove_object_from_pool
    simp [hany]

/-- Witness for C8: insert `shirtMBlue` into a pool holding only
`shirtLRed`, remove it again, then fail to remove it once more. -/
theorem insert_remove_roundtrip_spec_witness :
    (⟨[shirtLRed], PyClass.shirt, 5⟩ :
        ObjectPoolManagement).add_object_to_pool shirtMBlue
        = .ok ⟨[shirtLRed, shirtMBlue], PyClass.shirt, 5⟩
    ∧ (⟨[shirtLRed, shirtMBlue], PyClass.shirt, 5⟩ :
        ObjectPoolManagement).remove_object_from_pool shirtMBlue
        = .ok ⟨[shirtLRed], PyClass.shirt, 5⟩
    ∧ ([shirtLRed] ++ [shirtMBlue]).length = [shirtLRed].length + 1
    ∧ (⟨[shirtLRed], PyClass.shirt, 5⟩ :
        ObjectPoolManagement).remove_object_from_pool shirtMBlue
        = .error (.valueError "Object not found in pool") :=
  insert_remove_roundtrip_spec ⟨[shirtLRed], PyClass.shirt, 5⟩ shirtMBlue
    (by decide) (by decide) (by decide)

/-- Claim C9: in every reachable state, every stored pool's registry key
is its expected type's registered name, and, since registered names
resolve to distinct types, at most one pool exists per registered type. -/
theorem registry_keyed_by_type_spec (m : Int) (ops : List ApiOp) :
    (∀ (tn : String) (p : ObjectPoolManagement),
        dictLookup (apiRun (initState m) ops).pools tn = some p →
        registered_types tn = some p.expected_type)
    ∧ (∀ (tn₁ tn₂ : String) (p₁ p₂ : ObjectPoolManagement),
        dictLookup (apiRun (initState m) ops).pools tn₁ = some p₁ →
        dictLookup (apiRun (initState m) ops).pools tn₂ = some p₂ →
        p₁.expected_type = p₂.expected_type → tn₁ = tn₂) := by
  have hinv : ∀ q ∈ (apiRun (initState m) ops).pools,
      registered_types q.1 = some q.2.expected_type :=
    regInv_run ops (initState m) (by simp [initState])
  constructor
  · intro tn p h
    simpa using hinv (tn, p) (dictLookup_mem h)
  · intro tn₁ tn₂ p₁ p₂ h₁ h₂ he
    have r₁ := hinv (tn₁, p₁) (dictLookup_mem h₁)
    have r₂ := hinv (tn₂, p₂) (dictLookup_mem h₂)
    simp only at r₁ r₂
    rw [he] at r₁
    exact registered_types_inj r₁ r₂

/-- Witness for C9: after creating the shirt pool, its key is the
registered name of its expected type. -/
theorem registry_keyed_by_type_spec_witness :
    registered_types "shirt" = some PyClass.shirt :=
  (registry_keyed_by_type_spec 7 [ApiOp.create "shirt"]).1 "shirt"
    ⟨[], PyClass.shirt, 7⟩ (by decide)

/-- Claim C10 counterexample: with `max_size = 0` the member count is
already at the capacity bound, yet inserting a non-conforming object
fails with the type error, not the capacity error, because the type
check runs first. -/
theorem capacity_guard_cex :
    (((⟨[], PyClass.shirt, 0⟩ : ObjectPoolManagement).pool.length : Int)
        ≥ (⟨[], PyClass.shirt, 0⟩ : ObjectPoolManagement).max_size)
    ∧ (⟨[], PyClass.shirt, 0⟩ : ObjectPoolManagement).add_object_to_pool
        bookOrwell
        ≠ .error (.inputTooLargeError "Input list is too large.")
    ∧ (⟨[], PyClass.shirt, 0⟩ : ObjectPoolManagement).add_object_to_pool
        bookOrwell
        = .error (.valueError "Object type does not match expected type") := by
  decide

/-- Claim C10 (amended): the capacity guard uses `>=` and `max_size` is
never validated: whenever the type check passes and
`|members| >= max_size`, insert fails with the capacity error; with
`max_size <= 0` no insert ever succeeds and every pool in every reachable
state is empty, while every operation still returns a defined outcome. -/
theorem capacity_guard_spec (p : ObjectPoolManagement) (o : Obj) (m : Int)
    (ops : List ApiOp) :
    (isinstance o p.expected_type = true →
        (p.pool.length : Int) ≥ p.max_size →
        p.add_object_to_pool o
          = .error (.inputTooLargeError "Input list is too large."))
    ∧ (p.max_size ≤ 0 → ∀ p' : ObjectPoolManagement,
        p.add_object_to_pool o ≠ .ok p')
    ∧ (m ≤ 0 → ∀ q ∈ (apiRun (initState m) ops).pools, q.2.pool = []) := by
  refine ⟨?_, ?_, ?_⟩
  · intro hty hge
    unfold ObjectPoolManagement.add_object_to_pool
    simp [hty, hge]
  · intro hm p' h
    rcases (add_ok_iff p o p').mp h with ⟨_, hlt, _⟩
    have hnn : (0 : Int) ≤ (p.pool.length : Int) := Int.ofNat_nonneg _
    omega
  · intro hm q hq
    exact (emptyInv_run ops (initState m) hm (by simp [initState]) q hq).1

/-- Witness for C10 (amended): a full capacity-1 pool rejects a
conforming shirt with the capacity error; with `max_size = 0` an insert
cannot succeed; and after a create-then-add run with `max_size = -3` the
stored pool is still empty. -/
theorem capacity_guard_spec_witness :
    (⟨[shirtMBlue], PyClass.shirt, 1⟩ :
        ObjectPoolManagement).add_object_to_pool shirtLRed
        = .error (.inputTooLargeError "Input list is too large.")
    ∧ (⟨[], PyClass.shirt, 0⟩ : ObjectPoolManagement).add_object_to_pool
        shirtMBlue ≠ .ok ⟨[shirtMBlue], PyClass.shirt, 0⟩
    ∧ (⟨[], PyClass.shirt, -3⟩ : ObjectPoolManagement).pool = [] :=
  ⟨(capacity_guard_spec ⟨[shirtMBlue], PyClass.shirt, 1⟩ shirtLRed 0 []).1
      (by decide) (by decide),
   (capacity_guard_spec ⟨[], PyClass.shirt, 0⟩ shirtMBlue 0 []).2.1
      (by decide) ⟨[shirtMBlue], PyClass.shirt, 0⟩,
   (capacity_guard_spec ⟨[], PyClass.shirt, 0⟩ shirtMBlue (-3)
      [ApiOp.create "shirt", ApiOp.add "shirt" shirtMBlue]).2.2 (by decide)
      ("shirt", ⟨[], PyClass.shirt, -3⟩) (by decide)⟩

/-- Claim C3 counterexample: removing an object with no structurally
equal member yields status 400 — the client-error class, the same status
as duplicate-create — not the not-found class 404 that empty-pool
sampling yields. -/
theorem object_absent_status_cex :
    (api_remove_object ⟨[("shirt", ⟨[], PyClass.shirt, 10⟩)], 10⟩ "shirt"
        shirtMBlue).2
        = .error ⟨400, "Object not found in pool"⟩
    ∧ (create_object_pool ⟨[("shirt", ⟨[], PyClass.shirt, 10⟩)], 10⟩
        "shirt").2
        = .error ⟨400, "Pool for this type already exists"⟩
    ∧ (api_get_random ⟨[("shirt", ⟨[], PyClass.shirt, 10⟩)], 10⟩ "shirt"
        0).2
        = .error ⟨404, "No objects in the pool"⟩
    ∧ (400 : Int) ≠ 404 := by
  decide

/-- Claim C3 (amended): duplicate-create, type-mismatch, capacity and
object-absent conditions all map to the client-error class (status 400),
while pool-absent and empty-pool conditions map to the not-found class
(status 404). -/
theorem error_class_mapping (s : ApiState) (tn : String) (o : Obj) (k : Nat)
    (p : ObjectPoolManagement) :
    ((dictLookup s.pools tn).isSome = true →
        (create_object_pool s tn).2
          = .error ⟨400, "Pool for this type already exists"⟩)
    ∧ (dictLookup s.pools tn = some p → isinstance o p.expected_type = false →
        (api_add_object s tn o).2
            = .error ⟨400, "Object type does not match pool type"⟩
        ∧ (api_remove_object s tn o).2
            = .error ⟨400, "Object type does not match pool type"⟩)
    ∧ (dictLookup s.pools tn = some p → isinstance o p.expected_type = true →
        (p.pool.length : Int) ≥ p.max_size →
        (api_add_object s tn o).2 = .error ⟨400, "Input list is too large."⟩)
    ∧ (dictLookup s.pools tn = none →
        (api_add_object s tn o).2 = .error ⟨404, "Pool not found"⟩
        ∧ (api_remove_object s tn o).2 = .error ⟨404, "Pool not found"⟩
        ∧ (api_get_random s tn k).2 = .error ⟨404, "Pool not found"⟩)
    ∧ (dictLookup s.pools tn = some p → p.pool = [] →
        (api_get_random s tn k).2 = .error ⟨404, "No objects in the pool"⟩)
    ∧ (dictLookup s.pools tn = some p → isinstance o p.expected_type = true →
        (∀ x ∈ p.pool, pyEq x o = false) →
        (api_remove_object s tn o).2
          = .error ⟨400, "Object not found in pool"⟩) := by
  refine ⟨?_, ?_, ?_, ?_, ?_, ?_⟩
  · intro h
    unfold create_object_pool
    simp [h]
  · intro hd hty
    constructor
    · unfold api_add_object
      simp [hd, hty]
    · unfold api_remove_object
      simp [hd, hty]
  · intro hd hty hge
    have heng : p.add_object_to_pool o
        = .error (.inputTooLargeError "Input list is too large.") := by
      unfold ObjectPoolManagement.add_object_to_pool
      simp [hty, hge]
    unfold api_add_object
    simp [hd, hty, heng]
  · intro hd
    refine ⟨?_, ?_, ?_⟩
    · unfold api_add_object
      simp [hd]
    · unfold api_remove_object
      simp [hd]
    · unfold api_get_random
      simp [hd]
  · intro hd hemp
    have heng : p.get_random_object_from_pool k
        = .error (.indexError "No objects in the pool") := by
      unfold ObjectPoolManagement.get_random_object_from_pool
      simp [hemp]
    unfold api_get_random
    simp [hd, heng]
  · intro hd hty hall
    have hany : p.pool.any (fun x => pyEq x o) = false := by
      apply List.any_eq_false.mpr
      intro x hx
      simp [hall x hx]
    have heng : p.remove_object_from_pool o
        = .error (.valueError "Object not found in pool") := by
      unfold ObjectPoolManagement.remove_object_from_pool
      simp [hany]
    unfold api_remove_object
    simp [hd, hty, heng]

/-- Witness for C3 (amended): each error class at a concrete state. -/
theorem error_class_mapping_witness :
    (create_object_pool ⟨[("shirt", ⟨[], PyClass.shirt, 10⟩)], 10⟩
        "shirt").2
        = .error ⟨400, "Pool for this type already exists"⟩
    ∧ (api_add_object ⟨[("shirt", ⟨[], PyClass.shirt, 10⟩)], 10⟩ "shirt"
        bookOrwell).2
        = .error ⟨400, "Object type does not match pool type"⟩
    ∧ (api_add_object ⟨[("shirt", ⟨[shirtMBlue], PyClass.shirt, 1⟩)], 1⟩
        "shirt" shirtLRed).2
        = .error ⟨400, "Input list is too large."⟩
    ∧ (api_get_random ⟨[], 10⟩ "shirt" 0).2
        = .error ⟨404, "Pool not found"⟩
    ∧ (api_get_random ⟨[("shirt", ⟨[], PyClass.shirt, 10⟩)], 10⟩ "shirt"
        0).2
        = .error ⟨404, "No objects in the pool"⟩
    ∧ (api_remove_object ⟨[("shirt", ⟨[], PyClass.shirt, 10⟩)], 10⟩
        "shirt" shirtMBlue).2
        = .error ⟨400, "Object not found in pool"⟩ :=
  ⟨(error_class_mapping ⟨[("shirt", ⟨[], PyClass.shirt, 10⟩)], 10⟩ "shirt"
      bookOrwell 0 ⟨[], PyClass.shirt, 10⟩).1 (by decide),
   ((error_class_mapping ⟨[("shirt", ⟨[], PyClass.shirt, 10⟩)], 10⟩ "shirt"
      bookOrwell 0 ⟨[], PyClass.shirt, 10⟩).2.1 (by decide) (by decide)).1,
   (error_class_mapping ⟨[("shirt", ⟨[shirtMBlue], PyClass.shirt, 1⟩)], 1⟩
      "shirt" shirtLRed 0 ⟨[shirtMBlue], PyClass.shirt, 1⟩).2.2.1 (by decide)
      (by decide) (by decide),
   ((error_class_mapping ⟨[], 10⟩ "shirt" bookOrwell 0
      ⟨[], PyClass.shirt, 10⟩).2.2.2.1 (by decide)).2.2,
   (error_class_mapping ⟨[("shirt", ⟨[], PyClass.shirt, 10⟩)], 10⟩ "shirt"
      bookOrwell 0 ⟨[], PyClass.shirt, 10⟩).2.2.2.2.1 (by decide) (by decide),
   (error_class_mapping ⟨[("shirt", ⟨[], PyClass.shirt, 10⟩)], 10⟩ "shirt"
      shirtMBlue 0 ⟨[], PyClass.shirt, 10⟩).2.2.2.2.2 (by decide) (by decide)
      (by decide)⟩

end ObjectPool
